import Mathlib

/-!
Shallow embedding of the render-batch core of `src/rlgl.h` (raylib-hlsl).

Conventions used throughout:
* C `float`/`double` values are modelled as exact rationals (`ℚ`); the claims
  under study concern control flow, counters and which matrix operand goes on
  which side, not rounding.
* C `int` counters are modelled as `ℕ` (they are non-negative in every state
  the operations produce); the one place where a comparison can go negative
  (`elementCount * 4 - 4` in `rlVertex3f`) is computed in `ℤ` exactly as the
  C expression does.
* Fixed-size C arrays (`stack`, `draws`, the per-buffer data arrays) are
  modelled as total functions from `ℕ`, written by pointwise update, exactly
  at the indices the source writes.
* `rlTexture` is an opaque handle struct in the source; it is modelled as an
  opaque `ℕ` handle.  The source spells the draw-call texture field both
  `texture` (struct declaration, `rlBegin`, `rlSetTexture`) and `textureId`
  (`rlLoadRenderBatch`, `rlDrawRenderBatch`, `rlCheckRenderBatchLimit`); both
  spellings denote the single texture field, modelled here as `texture`.
* `rlBegin` reads an uninitialized local (`int vertex_count = vertex_count;`).
  That indeterminate value is modelled as an explicit `ℤ` parameter of
  `rlBegin`.
-/

/-- RL_LINES drawing mode constant (0x0001). -/
def RL_LINES : ℕ := 0x0001

/-- RL_TRIANGLES drawing mode constant (0x0004). -/
def RL_TRIANGLES : ℕ := 0x0004

/-- RL_QUADS drawing mode constant (0x0007). -/
def RL_QUADS : ℕ := 0x0007

/-- RL_MODELVIEW matrix mode constant (0x1700). -/
def RL_MODELVIEW : ℕ := 0x1700

/-- RL_PROJECTION matrix mode constant (0x1701). -/
def RL_PROJECTION : ℕ := 0x1701

/-- Maximum number of draw calls in a batch table. -/
def RL_DEFAULT_BATCH_DRAWCALLS : ℕ := 256

/-- Maximum number of auxiliary texture units bound for a batch. -/
def RL_DEFAULT_BATCH_MAX_TEXTURE_UNITS : ℕ := 4

/-- Maximum depth of the matrix stack. -/
def RL_MAX_MATRIX_STACK_SIZE : ℕ := 32

/-- 4x4 matrix, fields declared in the source order of `struct Matrix`:
`m0 m4 m8 m12` is the first row, `m1 m5 m9 m13` the second, and so on
(`m0..m3` is the first column). -/
structure RLMatrix where
  m0 : ℚ
  m4 : ℚ
  m8 : ℚ
  m12 : ℚ
  m1 : ℚ
  m5 : ℚ
  m9 : ℚ
  m13 : ℚ
  m2 : ℚ
  m6 : ℚ
  m10 : ℚ
  m14 : ℚ
  m3 : ℚ
  m7 : ℚ
  m11 : ℚ
  m15 : ℚ
deriving DecidableEq

/-- `rlMatrixIdentity`: the identity matrix. -/
def rlMatrixIdentity : RLMatrix :=
  { m0 := 1, m4 := 0, m8 := 0, m12 := 0
    m1 := 0, m5 := 1, m9 := 0, m13 := 0
    m2 := 0, m6 := 0, m10 := 1, m14 := 0
    m3 := 0, m7 := 0, m11 := 0, m15 := 1 }

/-- `rlMatrixMultiply(left, right)`: the 16 sum-of-products formulas of the
source, transcribed verbatim (raylib's "transposed" multiplication order). -/
def rlMatrixMultiply (left right : RLMatrix) : RLMatrix :=
  { m0 := left.m0 * right.m0 + left.m1 * right.m4 + left.m2 * right.m8 + left.m3 * right.m12
    m1 := left.m0 * right.m1 + left.m1 * right.m5 + left.m2 * right.m9 + left.m3 * right.m13
    m2 := left.m0 * right.m2 + left.m1 * right.m6 + left.m2 * right.m10 + left.m3 * right.m14
    m3 := left.m0 * right.m3 + left.m1 * right.m7 + left.m2 * right.m11 + left.m3 * right.m15
    m4 := left.m4 * right.m0 + left.m5 * right.m4 + left.m6 * right.m8 + left.m7 * right.m12
    m5 := left.m4 * right.m1 + left.m5 * right.m5 + left.m6 * right.m9 + left.m7 * right.m13
    m6 := left.m4 * right.m2 + left.m5 * right.m6 + left.m6 * right.m10 + left.m7 * right.m14
    m7 := left.m4 * right.m3 + left.m5 * right.m7 + left.m6 * right.m11 + left.m7 * right.m15
    m8 := left.m8 * right.m0 + left.m9 * right.m4 + left.m10 * right.m8 + left.m11 * right.m12
    m9 := left.m8 * right.m1 + left.m9 * right.m5 + left.m10 * right.m9 + left.m11 * right.m13
    m10 := left.m8 * right.m2 + left.m9 * right.m6 + left.m10 * right.m10 + left.m11 * right.m14
    m11 := left.m8 * right.m3 + left.m9 * right.m7 + left.m10 * right.m11 + left.m11 * right.m15
    m12 := left.m12 * right.m0 + left.m13 * right.m4 + left.m14 * right.m8 + left.m15 * right.m12
    m13 := left.m12 * right.m1 + left.m13 * right.m5 + left.m14 * right.m9 + left.m15 * right.m13
    m14 := left.m12 * right.m2 + left.m13 * right.m6 + left.m14 * right.m10 + left.m15 * right.m14
    m15 := left.m12 * right.m3 + left.m13 * right.m7 + left.m14 * right.m11 + left.m15 * right.m15 }

/-- The translation matrix literal built by `rlTranslatef`. -/
def matTranslation (x y z : ℚ) : RLMatrix :=
  { m0 := 1, m4 := 0, m8 := 0, m12 := x
    m1 := 0, m5 := 1, m9 := 0, m13 := y
    m2 := 0, m6 := 0, m10 := 1, m14 := z
    m3 := 0, m7 := 0, m11 := 0, m15 := 1 }

/-- The scaling matrix literal built by `rlScalef`. -/
def matScale (x y z : ℚ) : RLMatrix :=
  { m0 := x, m4 := 0, m8 := 0, m12 := 0
    m1 := 0, m5 := y, m9 := 0, m13 := 0
    m2 := 0, m6 := 0, m10 := z, m14 := 0
    m3 := 0, m7 := 0, m11 := 0, m15 := 1 }

/-- The rotation matrix assembled by `rlRotatef` from the (already normalized)
axis `(x, y, z)` and the computed `sinres`/`cosres` values.  The `sinf`/`cosf`
evaluation and the axis normalization are real-valued library calls; their
results enter here as parameters, and the matrix entries follow source lines
1026-1044 verbatim with `t = 1 - cosres`. -/
def matRotation (sinres cosres x y z : ℚ) : RLMatrix :=
  { m0 := x * x * (1 - cosres) + cosres
    m1 := y * x * (1 - cosres) + z * sinres
    m2 := z * x * (1 - cosres) - y * sinres
    m3 := 0
    m4 := x * y * (1 - cosres) - z * sinres
    m5 := y * y * (1 - cosres) + cosres
    m6 := z * y * (1 - cosres) + x * sinres
    m7 := 0
    m8 := x * z * (1 - cosres) + y * sinres
    m9 := y * z * (1 - cosres) - x * sinres
    m10 := z * z * (1 - cosres) + cosres
    m11 := 0
    m12 := 0, m13 := 0, m14 := 0, m15 := 1 }

/-- The matrix `rlMultMatrixf` builds from its 16-float column-major array
argument: row one is `matf[0] matf[4] matf[8] matf[12]`, and so on. -/
def matFromArray (f0 f1 f2 f3 f4 f5 f6 f7 f8 f9 f10 f11 f12 f13 f14 f15 : ℚ) : RLMatrix :=
  { m0 := f0, m4 := f4, m8 := f8, m12 := f12
    m1 := f1, m5 := f5, m9 := f9, m13 := f13
    m2 := f2, m6 := f6, m10 := f10, m14 := f14
    m3 := f3, m7 := f7, m11 := f11, m15 := f15 }

/-- The perspective matrix built by `rlFrustum` from its parameters
(`rl = right - left`, `tb = top - bottom`, `fn = zfar - znear`). -/
def matFrustum (left right bottom top znear zfar : ℚ) : RLMatrix :=
  { m0 := znear * 2 / (right - left)
    m1 := 0, m2 := 0, m3 := 0
    m4 := 0
    m5 := znear * 2 / (top - bottom)
    m6 := 0, m7 := 0
    m8 := (right + left) / (right - left)
    m9 := (top + bottom) / (top - bottom)
    m10 := -(zfar + znear) / (zfar - znear)
    m11 := -1
    m12 := 0, m13 := 0
    m14 := -(zfar * znear * 2) / (zfar - znear)
    m15 := 0 }

/-- The orthographic matrix built by `rlOrtho` from its parameters. -/
def matOrtho (left right bottom top znear zfar : ℚ) : RLMatrix :=
  { m0 := 2 / (right - left)
    m1 := 0, m2 := 0, m3 := 0
    m4 := 0
    m5 := 2 / (top - bottom)
    m6 := 0, m7 := 0
    m8 := 0, m9 := 0
    m10 := -2 / (zfar - znear)
    m11 := 0
    m12 := -(left + right) / (right - left)
    m13 := -(top + bottom) / (top - bottom)
    m14 := -(zfar + znear) / (zfar - znear)
    m15 := 1 }

/-- Which stored matrix `RLGH.State.currentMatrix` points at.  The source
uses a raw pointer into the state; the three possible targets are the
modelview, projection and transform matrices. -/
inductive MatTarget where
  | modelview : MatTarget
  | projection : MatTarget
  | transform : MatTarget
deriving DecidableEq

/-- The subset of `RLGH.State` the claims depend on. -/
structure RLState where
  vertexCounter : ℕ
  texcoordx : ℚ
  texcoordy : ℚ
  colorr : ℕ
  colorg : ℕ
  colorb : ℕ
  colora : ℕ
  currentMatrixMode : ℕ
  currentMatrixTarget : MatTarget
  modelview : RLMatrix
  projection : RLMatrix
  transform : RLMatrix
  transformRequired : Bool
  stack : ℕ → RLMatrix
  stackCounter : ℕ
  defaultTexture : ℕ
  activeTextureId : ℕ → ℕ
  stereoRender : Bool
  projectionStereo : ℕ → RLMatrix
  viewOffsetStereo : ℕ → RLMatrix

/-- Dereference of `RLGH.State.currentMatrix`. -/
def getCurrentMatrix (s : RLState) : RLMatrix :=
  match s.currentMatrixTarget with
  | MatTarget.modelview => s.modelview
  | MatTarget.projection => s.projection
  | MatTarget.transform => s.transform

/-- Assignment through `RLGH.State.currentMatrix`. -/
def setCurrentMatrix (s : RLState) (m : RLMatrix) : RLState :=
  match s.currentMatrixTarget with
  | MatTarget.modelview => { s with modelview := m }
  | MatTarget.projection => { s with projection := m }
  | MatTarget.transform => { s with transform := m }

/-- `rlMatrixMode`: retarget the current-matrix pointer (only for
RL_PROJECTION and RL_MODELVIEW) and record the mode. -/
def rlMatrixMode (mode : ℕ) (s : RLState) : RLState :=
  let s1 :=
    if mode = RL_PROJECTION then { s with currentMatrixTarget := MatTarget.projection }
    else if mode = RL_MODELVIEW then { s with currentMatrixTarget := MatTarget.modelview }
    else s
  { s1 with currentMatrixMode := mode }

/-- `rlPushMatrix`: on overflow only a log is emitted, then the push happens
unconditionally: in MODELVIEW mode the pointer is first retargeted to the
transform matrix, the current matrix is stored at index `stackCounter`, and
the counter is incremented. -/
def rlPushMatrix (s : RLState) : RLState :=
  let s1 :=
    if s.currentMatrixMode = RL_MODELVIEW then
      { s with transformRequired := true, currentMatrixTarget := MatTarget.transform }
    else s
  { s1 with
    stack := fun i => if i = s1.stackCounter then getCurrentMatrix s1 else s1.stack i
    stackCounter := s1.stackCounter + 1 }

/-- `rlTranslatef`: current = rlMatrixMultiply(matTranslation, current). -/
def rlTranslatef (s : RLState) (x y z : ℚ) : RLState :=
  setCurrentMatrix s (rlMatrixMultiply (matTranslation x y z) (getCurrentMatrix s))

/-- `rlRotatef`: current = rlMatrixMultiply(matRotation, current); the
trig/normalization results enter as the `matRotation` parameters. -/
def rlRotatef (s : RLState) (sinres cosres x y z : ℚ) : RLState :=
  setCurrentMatrix s (rlMatrixMultiply (matRotation sinres cosres x y z) (getCurrentMatrix s))

/-- `rlScalef`: current = rlMatrixMultiply(matScale, current). -/
def rlScalef (s : RLState) (x y z : ℚ) : RLState :=
  setCurrentMatrix s (rlMatrixMultiply (matScale x y z) (getCurrentMatrix s))

/-- `rlMultMatrixf`: current = rlMatrixMultiply(current, mat). -/
def rlMultMatrixf (s : RLState)
    (f0 f1 f2 f3 f4 f5 f6 f7 f8 f9 f10 f11 f12 f13 f14 f15 : ℚ) : RLState :=
  setCurrentMatrix s (rlMatrixMultiply (getCurrentMatrix s)
    (matFromArray f0 f1 f2 f3 f4 f5 f6 f7 f8 f9 f10 f11 f12 f13 f14 f15))

/-- `rlFrustum`: current = rlMatrixMultiply(current, matFrustum). -/
def rlFrustum (s : RLState) (left right bottom top znear zfar : ℚ) : RLState :=
  setCurrentMatrix s (rlMatrixMultiply (getCurrentMatrix s)
    (matFrustum left right bottom top znear zfar))

/-- `rlOrtho`: current = rlMatrixMultiply(current, matOrtho). -/
def rlOrtho (s : RLState) (left right bottom top znear zfar : ℚ) : RLState :=
  setCurrentMatrix s (rlMatrixMultiply (getCurrentMatrix s)
    (matOrtho left right bottom top znear zfar))

/-- One `rlDrawCall` table entry. -/
structure rlDrawCall where
  mode : ℕ
  vertexCount : ℕ
  vertexAlignment : ℕ
  texture : ℕ
deriving DecidableEq

/-- One `rlVertexBuffer` set: the capacity in quad elements and the CPU-side
arrays (positions hold 3 rationals per vertex, texcoords 2, colors 4 bytes,
indices 6 entries per quad). -/
structure rlVertexBuffer where
  elementCount : ℕ
  vertices : ℕ → ℚ
  texcoords : ℕ → ℚ
  colors : ℕ → ℕ
  indices : ℕ → ℕ

/-- The `rlRenderBatch` record. -/
structure rlRenderBatch where
  bufferCount : ℕ
  currentBuffer : ℕ
  vertexBuffer : ℕ → rlVertexBuffer
  draws : ℕ → rlDrawCall
  drawCounter : ℕ
  currentDepth : ℚ

/-- The global `RLGH` record: the renderer state plus the current batch
(`RLGH.currentBatch` is a pointer to the batch every batching operation
mutates; it is inlined here). -/
structure rlGraphicsData where
  State : RLState
  currentBatch : rlRenderBatch

/-- Pointwise update of one draw-call slot. -/
def updateDraw (b : rlRenderBatch) (slot : ℕ) (f : rlDrawCall → rlDrawCall) : rlRenderBatch :=
  { b with draws := fun j => if j = slot then f (b.draws j) else b.draws j }

/-- One iteration of the index-initialization loop of `rlLoadRenderBatch`
(source lines 2071-2076): writes the six indices of quad `k`. -/
def writeQuadIndices (f : ℕ → ℕ) (k : ℕ) : ℕ → ℕ :=
  fun i =>
    if i = 6 * k then 4 * k
    else if i = 6 * k + 1 then 4 * k + 1
    else if i = 6 * k + 2 then 4 * k + 2
    else if i = 6 * k + 3 then 4 * k
    else if i = 6 * k + 4 then 4 * k + 2
    else if i = 6 * k + 5 then 4 * k + 3
    else f i

/-- The index array produced by the `rlLoadRenderBatch` loop for capacity `C`:
quads `k = 0, 1, ..., C-1` written in order over freshly allocated storage
(entries past `6*C` are never written nor read; the base function stands for
that untouched storage). -/
def fillIndices (C : ℕ) : ℕ → ℕ :=
  (List.range C).foldl writeQuadIndices (fun _ => 0)

/-- The per-draw-call alignment computation shared by `rlBegin` (where it is
fed the uninitialized local) and `rlSetTexture` (where it is fed the entry's
`vertexCount`): LINES gives `n` if `n < 4` else `n % 4`; TRIANGLES gives `1`
if `n < 4` else `4 - n % 4`; anything else (QUADS) gives `0`. -/
def vertexAlignmentFor (mode n : ℕ) : ℕ :=
  if mode = RL_LINES then (if n < 4 then n else n % 4)
  else if mode = RL_TRIANGLES then (if n < 4 then 1 else 4 - n % 4)
  else 0

/-- `rlLoadRenderBatch(numBuffers, bufferElements)`: returns the new batch
and the mutated global renderer state.  The CPU arrays are zero-initialized,
the index array is filled by the quad loop, the draw table is created with
`RL_DEFAULT_BATCH_DRAWCALLS` default entries (QUADS, zero count, zero
alignment, default texture), `drawCounter = 1`, `currentDepth = -1`.  The
statement `RLGH.State.vertexCounter = 0` sits inside the per-buffer loop, so
the global vertex counter is reset whenever `numBuffers >= 1`. -/
def rlLoadRenderBatch (st : RLState) (numBuffers bufferElements : ℕ) :
    RLState × rlRenderBatch :=
  let buf : rlVertexBuffer :=
    { elementCount := bufferElements
      vertices := fun _ => 0
      texcoords := fun _ => 0
      colors := fun _ => 0
      indices := fillIndices bufferElements }
  let st1 := if 1 ≤ numBuffers then { st with vertexCounter := 0 } else st
  (st1,
   { bufferCount := numBuffers
     currentBuffer := 0
     vertexBuffer := fun _ => buf
     draws := fun _ =>
       { mode := RL_QUADS, vertexCount := 0, vertexAlignment := 0
         texture := st.defaultTexture }
     drawCounter := 1
     currentDepth := -1 })

/-- Convenience: a fresh graphics context whose current batch is a freshly
loaded batch (mirrors `rlglInit`, which sets `RLGH.defaultBatch =
rlLoadRenderBatch(...)` and `RLGH.currentBatch = &RLGH.defaultBatch`). -/
def mkContext (st : RLState) (numBuffers bufferElements : ℕ) : rlGraphicsData :=
  let p := rlLoadRenderBatch st numBuffers bufferElements
  { State := p.1, currentBatch := p.2 }

/-- `rlDrawRenderBatch`: upload and draw issuance are device effects; the
state effects modelled are: the stereo eye loop substitutes the per-eye
modelview/projection (the loop's last iteration is eye 1), then the reset
block sets `vertexCounter = 0`, `currentDepth = -1`, restores the
projection/modelview saved on entry, resets mode/count/texture of every draw
slot (`vertexAlignment` is not in the reset loop), clears the auxiliary
texture units, sets `drawCounter = 1` and advances `currentBuffer` with
wraparound. -/
def rlDrawRenderBatch (g : rlGraphicsData) : rlGraphicsData :=
  let matProjection := g.State.projection
  let matModelView := g.State.modelview
  let st1 :=
    if g.State.stereoRender then
      { g.State with
        modelview := rlMatrixMultiply matModelView (g.State.viewOffsetStereo 1)
        projection := g.State.projectionStereo 1 }
    else g.State
  let st2 :=
    { st1 with
      vertexCounter := 0
      projection := matProjection
      modelview := matModelView
      activeTextureId := fun i =>
        if i < RL_DEFAULT_BATCH_MAX_TEXTURE_UNITS then 0 else st1.activeTextureId i }
  let b := g.currentBatch
  let b1 : rlRenderBatch :=
    { b with
      currentDepth := -1
      draws := fun i =>
        if i < RL_DEFAULT_BATCH_DRAWCALLS then
          { mode := RL_QUADS, vertexCount := 0
            vertexAlignment := (b.draws i).vertexAlignment
            texture := st2.defaultTexture }
        else b.draws i
      drawCounter := 1
      currentBuffer := if b.currentBuffer + 1 ≥ b.bufferCount then 0 else b.currentBuffer + 1 }
  { State := st2, currentBatch := b1 }

/-- `rlCheckRenderBatchLimit(vCount)`: compares `vertexCounter + vCount`
against the current buffer's `elementCount * 4` (the source names the buffer
`vertex_buffer`, the local used by its sibling functions for
`RLGH.currentBatch->vertexBuffer[RLGH.currentBatch->currentBuffer]`).  On
overflow it saves mode/texture of the in-progress slot through a pointer
taken BEFORE the flush, flushes, and restores through that same stale
pointer, i.e. into slot `drawCounter - 1` of the PRE-flush counter. -/
def rlCheckRenderBatchLimit (vCount : ℕ) (g : rlGraphicsData) : Bool × rlGraphicsData :=
  if g.State.vertexCounter + vCount ≥
      (g.currentBatch.vertexBuffer g.currentBatch.currentBuffer).elementCount * 4 then
    let slot := g.currentBatch.drawCounter - 1
    let currentMode := (g.currentBatch.draws slot).mode
    let currentTexture := (g.currentBatch.draws slot).texture
    let g1 := rlDrawRenderBatch g
    let restore := fun d => { d with mode := currentMode, texture := currentTexture }
    (true, { g1 with currentBatch := updateDraw g1.currentBatch slot restore })
  else (false, g)

/-- The overflow pre-step of `rlVertex3f` (source lines 1227-1247): when the
counter has passed `elementCount * 4 - 4` and the in-progress entry's count
is an exact multiple of its primitive group size, a forced flush runs through
`rlCheckRenderBatchLimit` with one extra security vertex. -/
def rlVertex3fPre (g : rlGraphicsData) : rlGraphicsData :=
  let drawcall := g.currentBatch.draws (g.currentBatch.drawCounter - 1)
  let vbuf := g.currentBatch.vertexBuffer g.currentBatch.currentBuffer
  if (g.State.vertexCounter : ℤ) > (vbuf.elementCount : ℤ) * 4 - 4 then
    if drawcall.mode = RL_LINES ∧ drawcall.vertexCount % 2 = 0 then
      (rlCheckRenderBatchLimit (2 + 1) g).2
    else if drawcall.mode = RL_TRIANGLES ∧ drawcall.vertexCount % 3 = 0 then
      (rlCheckRenderBatchLimit (3 + 1) g).2
    else if drawcall.mode = RL_QUADS ∧ drawcall.vertexCount % 4 = 0 then
      (rlCheckRenderBatchLimit (4 + 1) g).2
    else g
  else g

/-- The buffer index at which the `rlVertex3f` call writes its vertex: the
re-read `RLGH.State.vertexCounter` after the possible forced flush. -/
def rlVertex3fIndex (g : rlGraphicsData) : ℕ :=
  (rlVertex3fPre g).State.vertexCounter

/-- `rlVertex3f(x, y, z)`: apply the transform matrix when required, run the
overflow pre-step, then write position/texcoord/color at the (re-read)
vertex counter and increment the global counter and the in-progress entry's
count. -/
def rlVertex3f (x y z : ℚ) (g : rlGraphicsData) : rlGraphicsData :=
  let tx := if g.State.transformRequired then
      g.State.transform.m0 * x + g.State.transform.m4 * y +
      g.State.transform.m8 * z + g.State.transform.m12
    else x
  let ty := if g.State.transformRequired then
      g.State.transform.m1 * x + g.State.transform.m5 * y +
      g.State.transform.m9 * z + g.State.transform.m13
    else y
  let tz := if g.State.transformRequired then
      g.State.transform.m2 * x + g.State.transform.m6 * y +
      g.State.transform.m10 * z + g.State.transform.m14
    else z
  let g1 := rlVertex3fPre g
  let vc := g1.State.vertexCounter
  let b := g1.currentBatch
  let cb := b.currentBuffer
  let vb := b.vertexBuffer cb
  let vb1 :=
    { vb with
      vertices := fun j =>
        if j = 3 * vc then tx else if j = 3 * vc + 1 then ty
        else if j = 3 * vc + 2 then tz else vb.vertices j
      texcoords := fun j =>
        if j = 2 * vc then g1.State.texcoordx
        else if j = 2 * vc + 1 then g1.State.texcoordy else vb.texcoords j
      colors := fun j =>
        if j = 4 * vc then g1.State.colorr else if j = 4 * vc + 1 then g1.State.colorg
        else if j = 4 * vc + 2 then g1.State.colorb
        else if j = 4 * vc + 3 then g1.State.colora else vb.colors j }
  let b1 :=
    { b with
      vertexBuffer := fun i => if i = cb then vb1 else b.vertexBuffer i
      draws := fun j => if j = b.drawCounter - 1 then
          { b.draws j with vertexCount := (b.draws j).vertexCount + 1 }
        else b.draws j }
  { State := { g1.State with vertexCounter := vc + 1 }, currentBatch := b1 }

/-- `rlEnd`: advance the depth counter by the fixed increment 1/20000. -/
def rlEnd (g : rlGraphicsData) : rlGraphicsData :=
  { g with currentBatch :=
      { g.currentBatch with currentDepth := g.currentBatch.currentDepth + 1 / 20000 } }

/-- `rlBegin(mode, garbage)`: `garbage` is the indeterminate value of the
uninitialized local `int vertex_count = vertex_count;`.  When the requested
mode differs from the in-progress entry's mode: if `garbage > 0` the
alignment (computed FROM THE GARBAGE, not from the entry's count) is stored
on the entry and, unless `rlCheckRenderBatchLimit` flushed, added to the
vertex counter while `drawCounter` advances to a fresh slot; then, if the
table is full, a flush runs; finally mode and default texture are written
through the `drawcall` pointer (stale when a flush intervened), and the dead
store `vertex_count = 0` touches only the local, never the entry's count. -/
def rlBegin (mode : ℕ) (garbage : ℤ) (g : rlGraphicsData) : rlGraphicsData :=
  let slot0 := g.currentBatch.drawCounter - 1
  if (g.currentBatch.draws slot0).mode ≠ mode then
    let step :=
      if garbage > 0 then
        let n := garbage.toNat
        let a := vertexAlignmentFor (g.currentBatch.draws slot0).mode n
        let setAlign := fun d => { d with vertexAlignment := a }
        let gA := { g with currentBatch := updateDraw g.currentBatch slot0 setAlign }
        let res := rlCheckRenderBatchLimit a gA
        if res.1 = false then
          let g2 := res.2
          let g3 : rlGraphicsData :=
            { State := { g2.State with vertexCounter := g2.State.vertexCounter + a }
              currentBatch := { g2.currentBatch with
                drawCounter := g2.currentBatch.drawCounter + 1 } }
          (g3, g3.currentBatch.drawCounter - 1)
        else (res.2, slot0)
      else (g, slot0)
    let g4 := step.1
    let slot1 := step.2
    let g5 := if g4.currentBatch.drawCounter ≥ RL_DEFAULT_BATCH_DRAWCALLS then
        rlDrawRenderBatch g4
      else g4
    let setMode := fun d => { d with mode := mode, texture := g5.State.defaultTexture }
    { g5 with currentBatch := updateDraw g5.currentBatch slot1 setMode }
  else g

/-- `rlSetTexture(texture)`: `none` models the NULL pointer (flush when the
quads batch limit is reached); `some tex` models a texture switch: when the
requested texture differs from the in-progress entry's and the entry has
vertices, the alignment (computed from the entry's real `vertexCount`) is
stored and applied as in `rlBegin`, and finally the requested texture and a
zero count are written through the (possibly stale) `drawcall` pointer. -/
def rlSetTexture (t : Option ℕ) (g : rlGraphicsData) : rlGraphicsData :=
  match t with
  | none =>
    if g.State.vertexCounter ≥
        (g.currentBatch.vertexBuffer g.currentBatch.currentBuffer).elementCount * 4 then
      rlDrawRenderBatch g
    else g
  | some tex =>
    let slot0 := g.currentBatch.drawCounter - 1
    if (g.currentBatch.draws slot0).texture ≠ tex then
      let step :=
        if (g.currentBatch.draws slot0).vertexCount > 0 then
          let a := vertexAlignmentFor (g.currentBatch.draws slot0).mode
            (g.currentBatch.draws slot0).vertexCount
          let setAlign := fun d => { d with vertexAlignment := a }
          let gA := { g with currentBatch := updateDraw g.currentBatch slot0 setAlign }
          let res := rlCheckRenderBatchLimit a gA
          if res.1 = false then
            let g2 := res.2
            let g3 : rlGraphicsData :=
              { State := { g2.State with vertexCounter := g2.State.vertexCounter + a }
                currentBatch := { g2.currentBatch with
                  drawCounter := g2.currentBatch.drawCounter + 1 } }
            (g3, g3.currentBatch.drawCounter - 1)
          else (res.2, slot0)
        else (g, slot0)
      let g4 := step.1
      let slot1 := step.2
      let g5 := if g4.currentBatch.drawCounter ≥ RL_DEFAULT_BATCH_DRAWCALLS then
          rlDrawRenderBatch g4
        else g4
      let setTex := fun d => { d with texture := tex, vertexCount := 0 }
      { g5 with currentBatch := updateDraw g5.currentBatch slot1 setTex }
    else g

set_option maxRecDepth 100000

/-- A concrete renderer state used for the evaluated traces: zero counters,
identity matrices, default texture handle 0, stereo off. -/
def initState : RLState :=
  { vertexCounter := 0, texcoordx := 0, texcoordy := 0
    colorr := 255, colorg := 255, colorb := 255, colora := 255
    currentMatrixMode := RL_MODELVIEW, currentMatrixTarget := MatTarget.modelview
    modelview := rlMatrixIdentity, projection := rlMatrixIdentity
    transform := rlMatrixIdentity, transformRequired := false
    stack := fun _ => rlMatrixIdentity, stackCounter := 0
    defaultTexture := 0, activeTextureId := fun _ => 0
    stereoRender := false
    projectionStereo := fun _ => rlMatrixIdentity
    viewOffsetStereo := fun _ => rlMatrixIdentity }

/-- Unfolding of the index-fill loop one quad at a time. -/
theorem fillIndices_succ (C : ℕ) :
    fillIndices (C + 1) = writeQuadIndices (fillIndices C) C := by
  unfold fillIndices
  rw [List.range_succ, List.foldl_append, List.foldl_cons, List.foldl_nil]

/-- Writing quad `n` leaves the six slots of any earlier quad `k < n` alone. -/
theorem writeQuadIndices_low (f : ℕ → ℕ) (n k r : ℕ) (hk : k < n) (hr : r ≤ 5) :
    writeQuadIndices f n (6 * k + r) = f (6 * k + r) := by
  unfold writeQuadIndices
  split_ifs <;> first | rfl | (exfalso; omega)

/-- The filled index array satisfies the 6-per-quad triangle-fan pattern for
every quad below the capacity. -/
theorem fillIndices_spec (C k : ℕ) (hk : k < C) :
    fillIndices C (6 * k) = 4 * k ∧
    fillIndices C (6 * k + 1) = 4 * k + 1 ∧
    fillIndices C (6 * k + 2) = 4 * k + 2 ∧
    fillIndices C (6 * k + 3) = 4 * k ∧
    fillIndices C (6 * k + 4) = 4 * k + 2 ∧
    fillIndices C (6 * k + 5) = 4 * k + 3 := by
  induction C with
  | zero => omega
  | succ n ih =>
    rw [fillIndices_succ]
    rcases Nat.lt_succ_iff_lt_or_eq.mp hk with h | h
    · have h0 := writeQuadIndices_low (fillIndices n) n k 0 h (by omega)
      have h1 := writeQuadIndices_low (fillIndices n) n k 1 h (by omega)
      have h2 := writeQuadIndices_low (fillIndices n) n k 2 h (by omega)
      have h3 := writeQuadIndices_low (fillIndices n) n k 3 h (by omega)
      have h4 := writeQuadIndices_low (fillIndices n) n k 4 h (by omega)
      have h5 := writeQuadIndices_low (fillIndices n) n k 5 h (by omega)
      simp only [Nat.add_zero] at h0
      rw [h0, h1, h2, h3, h4, h5]
      exact ih h
    · subst h
      unfold writeQuadIndices
      refine ⟨?_, ?_, ?_, ?_, ?_, ?_⟩ <;> (split_ifs <;> first | rfl | (exfalso; omega))

/-- A flush never touches the index arrays. -/
theorem indices_flush (g : rlGraphicsData) (i : ℕ) :
    ((rlDrawRenderBatch g).currentBatch.vertexBuffer i).indices =
      (g.currentBatch.vertexBuffer i).indices := rfl

/-- `rlCheckRenderBatchLimit` never touches the index arrays. -/
theorem indices_check (v : ℕ) (g : rlGraphicsData) (i : ℕ) :
    (((rlCheckRenderBatchLimit v g).2).currentBatch.vertexBuffer i).indices =
      (g.currentBatch.vertexBuffer i).indices := by
  unfold rlCheckRenderBatchLimit
  split_ifs <;> rfl

/-- The overflow pre-step of `rlVertex3f` never touches the index arrays. -/
theorem indices_pre (g : rlGraphicsData) (i : ℕ) :
    ((rlVertex3fPre g).currentBatch.vertexBuffer i).indices =
      (g.currentBatch.vertexBuffer i).indices := by
  simp only [rlVertex3fPre]
  split_ifs <;> first | rfl | (exact indices_check _ g i)

/-- `rlVertex3f` writes positions/texcoords/colors but never indices. -/
theorem indices_vertex (x y z : ℚ) (g : rlGraphicsData) (i : ℕ) :
    ((rlVertex3f x y z g).currentBatch.vertexBuffer i).indices =
      (g.currentBatch.vertexBuffer i).indices := by
  unfold rlVertex3f
  by_cases h : i = (rlVertex3fPre g).currentBatch.currentBuffer
  · simp only [h, if_pos rfl]
    exact indices_pre g _
  · simp only [if_neg h]
    exact indices_pre g i

/-- `rlBegin` never touches the index arrays. -/
theorem indices_begin (m : ℕ) (ga : ℤ) (g : rlGraphicsData) (i : ℕ) :
    ((rlBegin m ga g).currentBatch.vertexBuffer i).indices =
      (g.currentBatch.vertexBuffer i).indices := by
  simp only [rlBegin, updateDraw]
  split_ifs <;> simp only [indices_flush, indices_check]

/-- `rlSetTexture` never touches the index arrays. -/
theorem indices_setTexture (t : Option ℕ) (g : rlGraphicsData) (i : ℕ) :
    ((rlSetTexture t g).currentBatch.vertexBuffer i).indices =
      (g.currentBatch.vertexBuffer i).indices := by
  match t with
  | none =>
    simp only [rlSetTexture]
    split_ifs <;> simp only [indices_flush]
  | some tex =>
    simp only [rlSetTexture, updateDraw]
    split_ifs <;> simp only [indices_flush, indices_check]

/-- `rlEnd` never touches the index arrays. -/
theorem indices_end (g : rlGraphicsData) (i : ℕ) :
    ((rlEnd g).currentBatch.vertexBuffer i).indices =
      (g.currentBatch.vertexBuffer i).indices := rfl

/-- Reading back through the current-matrix pointer after writing through it
yields the written matrix. -/
theorem getCurrentMatrix_set (s : RLState) (m : RLMatrix) :
    getCurrentMatrix (setCurrentMatrix s m) = m := by
  unfold getCurrentMatrix setCurrentMatrix
  cases s.currentMatrixTarget <;> rfl

/-- Iterating `rlEnd` accumulates the fixed 1/20000 depth increment. -/
theorem rlEnd_iterate (g : rlGraphicsData) (n : ℕ) :
    ((rlEnd)^[n] g).currentBatch.currentDepth =
      g.currentBatch.currentDepth + n * (1 / 20000) := by
  induction n with
  | zero => simp
  | succ k ih =>
    rw [Function.iterate_succ_apply', rlEnd]
    push_cast
    simp only [ih]
    ring

/-- A flush resets the depth to its initial value -1. -/
theorem flush_depth (g : rlGraphicsData) :
    (rlDrawRenderBatch g).currentBatch.currentDepth = -1 := rfl

/-- Row-by-column reading of an `RLMatrix` as a mathematical 4x4 matrix. -/
def toMat (A : RLMatrix) : Matrix (Fin 4) (Fin 4) ℚ :=
  !![A.m0, A.m4, A.m8, A.m12;
     A.m1, A.m5, A.m9, A.m13;
     A.m2, A.m6, A.m10, A.m14;
     A.m3, A.m7, A.m11, A.m15]

/-- Bridge: `rlMatrixMultiply(left, right)` is the mathematical product
`right * left` (raylib's "transposed" convention), so an operation that
passes its new matrix as the FIRST argument composes it after the current
one in the mathematical sense. -/
theorem toMat_mul (l r : RLMatrix) :
    toMat (rlMatrixMultiply l r) = toMat r * toMat l := by
  ext i j
  fin_cases i <;> fin_cases j <;>
    simp [toMat, rlMatrixMultiply, Matrix.mul_apply, Fin.sum_univ_four] <;> ring

/-- Trace for the forced-flush claim: a fresh batch of capacity 2 (one
buffer), four QUADS vertices under the default texture, a texture switch to
handle 5 (which opens draw-call slot 1), then four more vertices.  At this
point `vertexCounter = 8 = capacity * 4`, the in-progress entry (slot 1) has
texture 5 and `vertexCount = 4` (an exact multiple of its QUADS group size),
so the next `rlVertex3f` takes the forced-flush path.  This trace never
enters `rlBegin`, so it is independent of the uninitialized-local issue. -/
def flushTraceBefore : rlGraphicsData :=
  (rlVertex3f 0 0 0) ((rlVertex3f 0 0 0) ((rlVertex3f 0 0 0) ((rlVertex3f 0 0 0)
    (rlSetTexture (some 5)
      ((rlVertex3f 0 0 0) ((rlVertex3f 0 0 0) ((rlVertex3f 0 0 0) ((rlVertex3f 0 0 0)
        (mkContext initState 1 2)))))))))

/-- The same trace after the ninth `rlVertex3f`, which triggers the forced
flush inside `rlCheckRenderBatchLimit`. -/
def flushTraceAfter : rlGraphicsData := rlVertex3f 0 0 0 flushTraceBefore

/-- Claim C1: the forced flush is supposed to preserve the in-progress
entry's mode and texture, so that after the flush the in-progress entry of
the reset table carries the pre-flush mode/texture with zero count.  The
code instead restores mode/texture through a `drawcall` pointer computed
BEFORE the flush: with `drawCounter = 2` the restore lands in stale slot 1,
while the post-flush in-progress entry (slot 0) keeps the reset defaults.
Evaluated here: before, the in-progress entry has texture 5 and count 4 with
the counter at the capacity bound 8; the ninth vertex flushes (it is written
at index 0) and afterwards the in-progress entry slot 0 has the DEFAULT
texture 0 while the saved texture 5 sits in the no-longer-current slot 1. -/
theorem claim1_forced_flush_drops_texture :
    (flushTraceBefore.currentBatch.drawCounter = 2 ∧
     (flushTraceBefore.currentBatch.draws 1).mode = RL_QUADS ∧
     (flushTraceBefore.currentBatch.draws 1).texture = 5 ∧
     (flushTraceBefore.currentBatch.draws 1).vertexCount = 4 ∧
     flushTraceBefore.State.vertexCounter = 8 ∧
     ((flushTraceBefore.currentBatch.vertexBuffer 0).elementCount = 2)) ∧
    rlVertex3fIndex flushTraceBefore = 0 ∧
    flushTraceAfter.currentBatch.drawCounter = 1 ∧
    (flushTraceAfter.currentBatch.draws 0).texture = 0 ∧
    (flushTraceAfter.currentBatch.draws 1).texture = 5 := by
  decide

/-- Trace for the capacity invariant: a fresh batch of capacity 1 (so
`capacity * 4 = 4`), four QUADS vertices, then `rlBegin(RL_TRIANGLES)` whose
uninitialized local takes the value -1: the in-place branch switches the
entry's mode to TRIANGLES while keeping its stale count 4. -/
def overflowTrace : rlGraphicsData :=
  rlBegin RL_TRIANGLES (-1)
    ((rlVertex3f 0 0 0) ((rlVertex3f 0 0 0) ((rlVertex3f 0 0 0) ((rlVertex3f 0 0 0)
      (mkContext initState 1 1)))))

/-- One more vertex on top of `overflowTrace` (written at index 4). -/
def overflowTrace5 : rlGraphicsData := rlVertex3f 0 0 0 overflowTrace

/-- And the sixth vertex, whose write index exceeds the capacity bound. -/
def overflowTrace6 : rlGraphicsData := rlVertex3f 0 0 0 overflowTrace5

/-- Claim C2: `vertexCounter` is supposed never to exceed `capacity * 4` at
the moment a vertex is written, with a flush intervening first otherwise.
Evaluated here: after `rlBegin(RL_TRIANGLES)` leaves the entry with mode
TRIANGLES and stale count 4 (counts 4 and 5 are not multiples of 3, so the
forced-flush guard never fires), the fifth vertex is written at index 4 and
the SIXTH vertex is written at index `rlVertex3fIndex overflowTrace5 = 5 >
4 = capacity * 4`, with no flush (`drawCounter` still 1, counter reaches 6):
the write lands past the end of the position/texcoord/color arrays. -/
theorem claim2_capacity_exceeded :
    ((overflowTrace.currentBatch.vertexBuffer 0).elementCount * 4 = 4) ∧
    (overflowTrace.currentBatch.draws 0).mode = RL_TRIANGLES ∧
    (overflowTrace.currentBatch.draws 0).vertexCount = 4 ∧
    rlVertex3fIndex overflowTrace = 4 ∧
    rlVertex3fIndex overflowTrace5 = 5 ∧
    overflowTrace6.State.vertexCounter = 6 ∧
    overflowTrace6.currentBatch.drawCounter = 1 := by
  decide

/-- Trace for the mode-switch claim: a fresh batch of capacity 4, three
QUADS vertices, then `rlBegin(RL_LINES)` with the uninitialized local at 0
(any non-positive indeterminate value takes this branch). -/
def beginTraceBefore : rlGraphicsData :=
  (rlVertex3f 0 0 0) ((rlVertex3f 0 0 0) ((rlVertex3f 0 0 0)
    (mkContext initState 1 4)))

/-- The same trace after `rlBegin(RL_LINES)`. -/
def beginTraceAfter : rlGraphicsData := rlBegin RL_LINES 0 beginTraceBefore

/-- Claim C3: after `rlBegin` with a different mode, the in-progress entry is
supposed to have the requested mode, ZERO vertex count and the default
texture.  The code tests and zeroes a self-initialized local
(`int vertex_count = vertex_count; ... vertex_count = 0;`) instead of the
entry's field, so the entry's count survives: starting from a QUADS entry
with 3 vertices, `rlBegin(RL_LINES)` leaves the in-progress entry with mode
LINES and default texture but vertexCount still 3, not 0. -/
theorem claim3_begin_keeps_stale_count :
    (beginTraceBefore.currentBatch.draws 0).mode = RL_QUADS ∧
    (beginTraceBefore.currentBatch.draws 0).vertexCount = 3 ∧
    beginTraceAfter.currentBatch.drawCounter = 1 ∧
    (beginTraceAfter.currentBatch.draws 0).mode = RL_LINES ∧
    (beginTraceAfter.currentBatch.draws 0).texture = 0 ∧
    (beginTraceAfter.currentBatch.draws 0).vertexCount = 3 := by
  decide

/-- Trace for the alignment claim: a fresh batch of capacity 8, mode set to
TRIANGLES (uninitialized local 0 on a fresh entry), then five vertices: the
in-progress entry is TRIANGLES with vertexCount 5. -/
def alignTraceTri5 : rlGraphicsData :=
  (rlVertex3f 0 0 0) ((rlVertex3f 0 0 0) ((rlVertex3f 0 0 0) ((rlVertex3f 0 0 0)
    ((rlVertex3f 0 0 0) (rlBegin RL_TRIANGLES 0 (mkContext initState 1 8))))))

/-- Switching away from the TRIANGLES-count-5 entry via `rlBegin(RL_QUADS)`
when the uninitialized local happens to hold 1. -/
def alignTraceBeginQuads : rlGraphicsData := rlBegin RL_QUADS 1 alignTraceTri5

/-- Switching away from the TRIANGLES-count-5 entry via a texture switch. -/
def alignTraceSetTex : rlGraphicsData := rlSetTexture (some 9) alignTraceTri5

/-- Claim C4: closing a TRIANGLES entry with vertexCount 5 is supposed to
record alignment `4 - (5 % 4) = 3` on both the mode-switch and the
texture-switch paths.  The `rlSetTexture` path does (alignment 3 recorded,
the counter skips from 5 to 8, a new entry opens).  The `rlBegin` path
computes the alignment from the uninitialized local instead of the entry's
count: with the local at 1 it records alignment 1 and advances the counter
only to 6, so the mode-switch half of the claim fails on the code. -/
theorem claim4_begin_alignment_from_garbage :
    ((alignTraceTri5.currentBatch.draws 0).mode = RL_TRIANGLES ∧
     (alignTraceTri5.currentBatch.draws 0).vertexCount = 5 ∧
     alignTraceTri5.State.vertexCounter = 5) ∧
    ((alignTraceBeginQuads.currentBatch.draws 0).vertexAlignment = 1 ∧
     alignTraceBeginQuads.State.vertexCounter = 6 ∧
     alignTraceBeginQuads.currentBatch.drawCounter = 2) ∧
    ((alignTraceSetTex.currentBatch.draws 0).vertexAlignment = 3 ∧
     alignTraceSetTex.State.vertexCounter = 8 ∧
     alignTraceSetTex.currentBatch.drawCounter = 2 ∧
     (alignTraceSetTex.currentBatch.draws 1).texture = 9 ∧
     (alignTraceSetTex.currentBatch.draws 1).vertexCount = 0) := by
  decide

/-- Claim C5: after every flush (`rlDrawRenderBatch`), the vertex counter is
0, the depth is back at its initial value -1, the draw table is reset to a
single in-progress default entry (QUADS mode, zero count, default texture in
every slot, `drawCounter = 1`), the auxiliary texture units are cleared, the
buffer cursor advances by one modulo the buffer count, and the
modelview/projection matrices equal their pre-call (pre-stereo-substitution)
values. -/
theorem claim5_flush_resets (g : rlGraphicsData)
    (h : g.currentBatch.currentBuffer < g.currentBatch.bufferCount) :
    (rlDrawRenderBatch g).State.vertexCounter = 0 ∧
    (rlDrawRenderBatch g).currentBatch.currentDepth = -1 ∧
    (rlDrawRenderBatch g).currentBatch.drawCounter = 1 ∧
    (∀ i, i < RL_DEFAULT_BATCH_DRAWCALLS →
      ((rlDrawRenderBatch g).currentBatch.draws i).mode = RL_QUADS ∧
      ((rlDrawRenderBatch g).currentBatch.draws i).vertexCount = 0 ∧
      ((rlDrawRenderBatch g).currentBatch.draws i).texture = g.State.defaultTexture) ∧
    (∀ i, i < RL_DEFAULT_BATCH_MAX_TEXTURE_UNITS →
      (rlDrawRenderBatch g).State.activeTextureId i = 0) ∧
    (rlDrawRenderBatch g).currentBatch.currentBuffer =
      (g.currentBatch.currentBuffer + 1) % g.currentBatch.bufferCount ∧
    (rlDrawRenderBatch g).State.modelview = g.State.modelview ∧
    (rlDrawRenderBatch g).State.projection = g.State.projection := by
  refine ⟨rfl, rfl, rfl, ?_, ?_, ?_, ?_, ?_⟩
  · intro i hi
    refine ⟨?_, ?_, ?_⟩ <;> simp only [rlDrawRenderBatch, if_pos hi] <;>
      split_ifs <;> rfl
  · intro i hi
    simp only [rlDrawRenderBatch]
    exact if_pos hi
  · simp only [rlDrawRenderBatch]
    rcases Nat.lt_or_ge (g.currentBatch.currentBuffer + 1) g.currentBatch.bufferCount with hlt | hge
    · rw [if_neg (by omega), Nat.mod_eq_of_lt hlt]
    · have heq : g.currentBatch.currentBuffer + 1 = g.currentBatch.bufferCount := by omega
      rw [if_pos (by omega), heq, Nat.mod_self]
  · simp only [rlDrawRenderBatch]
  · simp only [rlDrawRenderBatch]

/-- Witness for C5 at a concrete reachable state: a fresh two-buffer batch. -/
theorem claim5_flush_resets_witness :
    (mkContext initState 2 1).currentBatch.currentBuffer <
      (mkContext initState 2 1).currentBatch.bufferCount ∧
    (rlDrawRenderBatch (mkContext initState 2 1)).State.vertexCounter = 0 ∧
    (rlDrawRenderBatch (mkContext initState 2 1)).currentBatch.currentBuffer =
      ((mkContext initState 2 1).currentBatch.currentBuffer + 1) %
        (mkContext initState 2 1).currentBatch.bufferCount := by
  have h : (mkContext initState 2 1).currentBatch.currentBuffer <
      (mkContext initState 2 1).currentBatch.bufferCount := by decide
  have hmain := claim5_flush_resets (mkContext initState 2 1) h
  exact ⟨h, hmain.1, hmain.2.2.2.2.2.1⟩

/-- Claim C6: for a batch loaded with capacity `C`, every buffer's index
array satisfies `indices[6k .. 6k+5] = (4k, 4k+1, 4k+2, 4k, 4k+2, 4k+3)` for
all `k < C`, and none of the batching operations (vertex emission, begin,
end, texture switch, flush, limit check) ever writes an index array. -/
theorem claim6_quad_indices (st : RLState) (nb C k b : ℕ) (hk : k < C) :
    (((rlLoadRenderBatch st nb C).2.vertexBuffer b).indices (6 * k) = 4 * k ∧
     ((rlLoadRenderBatch st nb C).2.vertexBuffer b).indices (6 * k + 1) = 4 * k + 1 ∧
     ((rlLoadRenderBatch st nb C).2.vertexBuffer b).indices (6 * k + 2) = 4 * k + 2 ∧
     ((rlLoadRenderBatch st nb C).2.vertexBuffer b).indices (6 * k + 3) = 4 * k ∧
     ((rlLoadRenderBatch st nb C).2.vertexBuffer b).indices (6 * k + 4) = 4 * k + 2 ∧
     ((rlLoadRenderBatch st nb C).2.vertexBuffer b).indices (6 * k + 5) = 4 * k + 3) ∧
    (∀ (g : rlGraphicsData) (x y z : ℚ) (i : ℕ),
      ((rlVertex3f x y z g).currentBatch.vertexBuffer i).indices =
        (g.currentBatch.vertexBuffer i).indices) ∧
    (∀ (g : rlGraphicsData) (m : ℕ) (ga : ℤ) (i : ℕ),
      ((rlBegin m ga g).currentBatch.vertexBuffer i).indices =
        (g.currentBatch.vertexBuffer i).indices) ∧
    (∀ (g : rlGraphicsData) (t : Option ℕ) (i : ℕ),
      ((rlSetTexture t g).currentBatch.vertexBuffer i).indices =
        (g.currentBatch.vertexBuffer i).indices) ∧
    (∀ (g : rlGraphicsData) (i : ℕ),
      ((rlEnd g).currentBatch.vertexBuffer i).indices =
        (g.currentBatch.vertexBuffer i).indices) ∧
    (∀ (g : rlGraphicsData) (i : ℕ),
      ((rlDrawRenderBatch g).currentBatch.vertexBuffer i).indices =
        (g.currentBatch.vertexBuffer i).indices) ∧
    (∀ (g : rlGraphicsData) (v i : ℕ),
      (((rlCheckRenderBatchLimit v g).2).currentBatch.vertexBuffer i).indices =
        (g.currentBatch.vertexBuffer i).indices) := by
  refine ⟨fillIndices_spec C k hk, ?_, ?_, ?_, indices_end, indices_flush, ?_⟩
  · intro g x y z i
    exact indices_vertex x y z g i
  · intro g m ga i
    exact indices_begin m ga g i
  · intro g t i
    exact indices_setTexture t g i
  · intro g v i
    exact indices_check v g i

/-- Witness for C6: quad 1 of a freshly loaded capacity-2 batch. -/
theorem claim6_quad_indices_witness :
    1 < 2 ∧ ((rlLoadRenderBatch initState 1 2).2.vertexBuffer 0).indices (6 * 1) = 4 * 1 := by
  have hmain := claim6_quad_indices initState 1 2 1 0 (by decide)
  exact ⟨by decide, hmain.1.1⟩

/-- Claim C7: starting from a freshly flushed batch (and likewise from a
freshly loaded one), `n` calls to `rlEnd` leave `currentDepth` at the
initial value -1 plus `n` times the fixed increment 1/20000, and any
subsequent flush resets the depth back to -1. -/
theorem claim7_depth_accumulates (g : rlGraphicsData) (st : RLState)
    (nb be : ℕ) (n m : ℕ) :
    ((rlEnd)^[n] (rlDrawRenderBatch g)).currentBatch.currentDepth =
      -1 + n * (1 / 20000) ∧
    ((rlEnd)^[m] (mkContext st nb be)).currentBatch.currentDepth =
      -1 + m * (1 / 20000) ∧
    (rlDrawRenderBatch ((rlEnd)^[n] (rlDrawRenderBatch g))).currentBatch.currentDepth = -1 := by
  refine ⟨?_, ?_, flush_depth _⟩
  · rw [rlEnd_iterate, flush_depth]
  · rw [rlEnd_iterate]
    have hstart : (mkContext st nb be).currentBatch.currentDepth = -1 := rfl
    rw [hstart]

/-- A state whose matrix stack is already at the fixed maximum depth. -/
def pushOverflowState : RLState :=
  { initState with stackCounter := RL_MAX_MATRIX_STACK_SIZE }

/-- Claim C8 counterexample: with the stack at its maximum depth, the claim
says the push is dropped with the stack counter unchanged; but `rlPushMatrix`
only logs the overflow and then pushes anyway, so the counter changes (from
32 to 33). -/
theorem claim8_push_counter_changes :
    (rlPushMatrix pushOverflowState).stackCounter ≠ pushOverflowState.stackCounter := by
  decide

/-- Claim C8 (amended): when `rlPushMatrix` is called with the stack already
at `RL_MAX_MATRIX_STACK_SIZE`, the overflow is only logged and the push is
NOT dropped: the stack counter still increments, the current matrix (the
transform matrix when the mode is MODELVIEW, because the pointer is
retargeted first) is written at index `stackCounter` — one slot past the
declared array bounds — and the entries within the array's bounds (indices
below 32) are unchanged. -/
theorem claim8_push_not_dropped (s : RLState)
    (h : RL_MAX_MATRIX_STACK_SIZE ≤ s.stackCounter) :
    (rlPushMatrix s).stackCounter = s.stackCounter + 1 ∧
    (∀ i, i < RL_MAX_MATRIX_STACK_SIZE → (rlPushMatrix s).stack i = s.stack i) ∧
    (rlPushMatrix s).stack s.stackCounter =
      (if s.currentMatrixMode = RL_MODELVIEW then s.transform else getCurrentMatrix s) := by
  refine ⟨?_, ?_, ?_⟩
  · unfold rlPushMatrix
    split_ifs <;> rfl
  · intro i hi
    unfold rlPushMatrix
    split_ifs <;> simp only [] <;> rw [if_neg (by omega)]
  · unfold rlPushMatrix
    split_ifs with hm
    · simp only [if_pos rfl]
      rfl
    · simp

/-- Witness for C8 (amended) at the concrete overflowing state. -/
theorem claim8_push_not_dropped_witness :
    RL_MAX_MATRIX_STACK_SIZE ≤ pushOverflowState.stackCounter ∧
    (rlPushMatrix pushOverflowState).stackCounter = pushOverflowState.stackCounter + 1 := by
  have h : RL_MAX_MATRIX_STACK_SIZE ≤ pushOverflowState.stackCounter := by decide
  exact ⟨h, (claim8_push_not_dropped pushOverflowState h).1⟩

/-- A state whose modelview matrix is a concrete translation, used to
separate the two multiplication orders. -/
def frustumCexState : RLState := { initState with modelview := matTranslation 1 2 3 }

/-- Claim C9 counterexample: the claim says `rlFrustum` pre-multiplies,
i.e. produces `rlMatrixMultiply(matFrustum, current)`; on the current matrix
`matTranslation 1 2 3` with frustum parameters (0, 1, 0, 1, 1, 2) the code's
result (`rlMatrixMultiply(current, matFrustum)`, entry m12 = 5) differs from
the claimed pre-multiplication (entry m12 = 0). -/
theorem claim9_frustum_not_premultiplied :
    (getCurrentMatrix (rlFrustum frustumCexState 0 1 0 1 1 2)).m12 ≠
      (rlMatrixMultiply (matFrustum 0 1 0 1 1 2) (getCurrentMatrix frustumCexState)).m12 := by
  norm_num [rlFrustum, getCurrentMatrix, setCurrentMatrix, frustumCexState, initState,
    matFrustum, matTranslation, rlMatrixMultiply]

/-- Claim C9 (amended): in the source's `rlMatrixMultiply` convention,
`rlTranslatef`, `rlRotatef` and `rlScalef` pre-multiply (the new matrix is
`rlMatrixMultiply(X, current)`), while `rlMultMatrixf`, `rlFrustum` AND
`rlOrtho` post-multiply (the new matrix is `rlMatrixMultiply(current, X)`).
So `multMatrixf` is not the only post-multiplying operation: the frustum and
ortho operations share its argument order.  (`toMat_mul` relates this
convention to the mathematical matrix product.) -/
theorem claim9_multiply_sides (s : RLState) (x y z sr cr : ℚ)
    (f0 f1 f2 f3 f4 f5 f6 f7 f8 f9 f10 f11 f12 f13 f14 f15 : ℚ)
    (l r b t zn zf : ℚ) :
    getCurrentMatrix (rlTranslatef s x y z) =
      rlMatrixMultiply (matTranslation x y z) (getCurrentMatrix s) ∧
    getCurrentMatrix (rlRotatef s sr cr x y z) =
      rlMatrixMultiply (matRotation sr cr x y z) (getCurrentMatrix s) ∧
    getCurrentMatrix (rlScalef s x y z) =
      rlMatrixMultiply (matScale x y z) (getCurrentMatrix s) ∧
    getCurrentMatrix (rlMultMatrixf s f0 f1 f2 f3 f4 f5 f6 f7 f8 f9 f10 f11 f12 f13 f14 f15) =
      rlMatrixMultiply (getCurrentMatrix s)
        (matFromArray f0 f1 f2 f3 f4 f5 f6 f7 f8 f9 f10 f11 f12 f13 f14 f15) ∧
    getCurrentMatrix (rlFrustum s l r b t zn zf) =
      rlMatrixMultiply (getCurrentMatrix s) (matFrustum l r b t zn zf) ∧
    getCurrentMatrix (rlOrtho s l r b t zn zf) =
      rlMatrixMultiply (getCurrentMatrix s) (matOrtho l r b t zn zf) := by
  refine ⟨?_, ?_, ?_, ?_, ?_, ?_⟩ <;>
    simp only [rlTranslatef, rlRotatef, rlScalef, rlMultMatrixf, rlFrustum, rlOrtho,
      getCurrentMatrix_set]

/-- Claim C10: `rlLoadRenderBatch` resets the global `vertexCounter` to 0 as
a side effect of creating ANY batch with at least one buffer (the reset sits
inside the per-buffer loop), clobbering the count of vertices accumulated in
the still-active batch, while touching nothing else in the renderer state. -/
theorem claim10_load_resets_counter (st : RLState) (n e : ℕ) (h : 1 ≤ n) :
    (rlLoadRenderBatch st n e).1 = { st with vertexCounter := 0 } ∧
    (rlLoadRenderBatch st n e).1.vertexCounter = 0 := by
  constructor
  · simp only [rlLoadRenderBatch, if_pos h]
  · simp only [rlLoadRenderBatch, if_pos h]

/-- Witness for C10: loading a one-buffer batch from a state whose counter
is nonzero. -/
theorem claim10_load_resets_counter_witness :
    1 ≤ 1 ∧
    (rlLoadRenderBatch { initState with vertexCounter := 7 } 1 1).1.vertexCounter = 0 := by
  exact ⟨le_refl 1,
    (claim10_load_resets_counter { initState with vertexCounter := 7 } 1 1 (le_refl 1)).2⟩
